import Mathlib

/-!
Verification of the agririsk backend core: the spatial aggregation functions
(`backend/app/data_utils.py`) and the multi-peril scoring / premium pipeline
(`backend/app/main.py`, `calculate_risk`).

Modelling conventions:
* Python floats are modelled as exact rationals (`ℚ`).  `round(x, n)` is
  modelled as round-half-to-even at `n` decimal digits on `ℚ`.
* Python's truthiness coercion `x or d` on a float `x` is modelled by
  `pyOr x d`, which substitutes `d` exactly when `x = 0` (a float is falsy
  iff it equals `0.0`).
* The sample tables read from the CSV files are modelled as lists of
  `Sample` records; reading the file itself is I/O and out of scope, so the
  aggregation functions take the loaded table as an argument.
* The geometric primitives come from the shapely dependency, whose source is
  not part of this repository; they are modelled from shapely's documented
  behaviour on simple polygons (see `contains`, `centroid`, `dist2` below).
* `pandas.Series.idxmin` returns the index of the FIRST occurrence of the
  minimum; `df.loc[df['dist'].idxmin()]` therefore selects the first row of
  minimal distance.  This selection is modelled by `idxminBy`.
-/

namespace AgriRisk

/-- A row of one of the sample CSV tables: a (lon, lat, value) triple.
The value column is `ndvi`, `elevation` or `value` depending on the table;
all three are a single rational here. -/
structure Sample where
  lon : ℚ
  lat : ℚ
  value : ℚ
deriving DecidableEq, Repr

/-- Cross product `(b - a) × (p - a)`; positive iff `p` is strictly to the
left of the directed line from `a` to `b`. -/
def cross (a b p : ℚ × ℚ) : ℚ :=
  (b.1 - a.1) * (p.2 - a.2) - (b.2 - a.2) * (p.1 - a.1)

/-- The directed edge list of a polygon ring given by its vertices (each
vertex paired with its cyclic successor). -/
def edges (poly : List (ℚ × ℚ)) : List ((ℚ × ℚ) × (ℚ × ℚ)) :=
  poly.zip (poly.rotate 1)

/-- Modelled from the shapely dependency: `poly.contains(Point(lon, lat))`.
GEOS/shapely `contains` holds iff the point lies in the INTERIOR of the
polygon — a point on the boundary is not contained.  For a counter-clockwise
convex ring this is: the point is strictly to the left of every edge. -/
def contains (poly : List (ℚ × ℚ)) (p : ℚ × ℚ) : Bool :=
  decide (3 ≤ poly.length) &&
    (edges poly).all (fun e => decide (0 < cross e.1 e.2 p))

/-- Modelled from the shapely dependency: `poly.centroid`, the area-weighted
centroid of the polygon, by the standard shoelace formula. -/
def centroid (poly : List (ℚ × ℚ)) : ℚ × ℚ :=
  let es := edges poly
  let a2 := (es.map (fun e => e.1.1 * e.2.2 - e.2.1 * e.1.2)).sum
  ((es.map (fun e => (e.1.1 + e.2.1) * (e.1.1 * e.2.2 - e.2.1 * e.1.2))).sum / (3 * a2),
   (es.map (fun e => (e.1.2 + e.2.2) * (e.1.1 * e.2.2 - e.2.1 * e.1.2))).sum / (3 * a2))

/-- Squared Euclidean distance.  `centroid.distance(Point(...))` in the
source is the Euclidean distance `√(dist2 ..)`; since the square root is
strictly monotone, comparisons, minima and ties of distances coincide with
those of squared distances, so the embedding works with `dist2` and stays
inside `ℚ`. -/
def dist2 (c p : ℚ × ℚ) : ℚ :=
  (c.1 - p.1) ^ 2 + (c.2 - p.2) ^ 2

/-- One step of the running-minimum fold: keep the current best unless the
new row is STRICTLY closer (so the first occurrence of the minimum wins). -/
def step (f : Sample → ℚ) (best x : Sample) : Sample :=
  if f x < f best then x else best

/-- Modelled from pandas: `df.loc[df['dist'].idxmin()]` — the first row of
the table achieving the minimal value of `f`; `none` on an empty table
(where `idxmin` raises). -/
def idxminBy (f : Sample → ℚ) : List Sample → Option Sample
  | [] => none
  | s :: rest => some (rest.foldl (step f) s)

/-- `get_ndvi_stats` from `backend/app/data_utils.py`: mean of the `ndvi`
values of the samples contained in the polygon; if no sample is contained,
the value of the sample nearest to the polygon's centroid. -/
def get_ndvi_stats (poly : List (ℚ × ℚ)) (df : List Sample) : Option ℚ :=
  let values := (df.filter (fun r => contains poly (r.lon, r.lat))).map Sample.value
  if values.isEmpty then
    (idxminBy (fun r => dist2 (centroid poly) (r.lon, r.lat)) df).map Sample.value
  else
    some (values.sum / values.length)

/-- `get_elevation_stats` from `backend/app/data_utils.py`; identical to
`get_ndvi_stats` except that it reads the `elevation` column of its table. -/
def get_elevation_stats (poly : List (ℚ × ℚ)) (df : List Sample) : Option ℚ :=
  let values := (df.filter (fun r => contains poly (r.lon, r.lat))).map Sample.value
  if values.isEmpty then
    (idxminBy (fun r => dist2 (centroid poly) (r.lon, r.lat)) df).map Sample.value
  else
    some (values.sum / values.length)

/-- `get_weather_stats` from `backend/app/data_utils.py`; identical to
`get_ndvi_stats` except that it reads the `value` column of its table. -/
def get_weather_stats (poly : List (ℚ × ℚ)) (df : List Sample) : Option ℚ :=
  let values := (df.filter (fun r => contains poly (r.lon, r.lat))).map Sample.value
  if values.isEmpty then
    (idxminBy (fun r => dist2 (centroid poly) (r.lon, r.lat)) df).map Sample.value
  else
    some (values.sum / values.length)

/-- Python's `x or d` for a float `x`: `d` when `x` is falsy (i.e. `0.0`),
otherwise `x`.  This is the coercion written `(ndvi or 0.5)` etc. in
`calculate_risk`. -/
def pyOr (x d : ℚ) : ℚ :=
  if x = 0 then d else x

/-- Python's `x or d` for an `Optional[float] x`: `d` when `x` is `None` or
`0.0`.  This is `req.coverage or 1.0` in `calculate_risk`. -/
def pyOrOpt (x : Option ℚ) (d : ℚ) : ℚ :=
  match x with
  | none => d
  | some c => if c = 0 then d else c

/-- Round-half-to-even to the nearest integer, the tie-breaking rule of
Python 3's builtin `round`. -/
def roundHalfEven (q : ℚ) : ℤ :=
  if q - ⌊q⌋ < 1 / 2 then ⌊q⌋
  else if 1 / 2 < q - ⌊q⌋ then ⌊q⌋ + 1
  else if 2 ∣ ⌊q⌋ then ⌊q⌋ else ⌊q⌋ + 1

/-- Python's `round(x, 2)` (modelled on exact rationals). -/
def round2 (q : ℚ) : ℚ :=
  (roundHalfEven (q * 100) : ℚ) / 100

/-- Python's `round(x, 3)` (modelled on exact rationals). -/
def round3 (q : ℚ) : ℚ :=
  (roundHalfEven (q * 1000) : ℚ) / 1000

/-- The five peril names of the scorer. -/
inductive Peril where
  | drought
  | flood
  | hail
  | frost
  | pestilence
deriving DecidableEq, Repr

/-- `drought_score` in `calculate_risk`:
`max(0, 1 - ((ndvi or 0.5) + (weather or 5)/20))`. -/
def drought_score (ndvi weather : ℚ) : ℚ :=
  max 0 (1 - (pyOr ndvi 0.5 + pyOr weather 5 / 20))

/-- `flood_score` in `calculate_risk`:
`max(0, 1 - ((elevation or 1000)/2000) + (weather or 5)/20)`. -/
def flood_score (elevation weather : ℚ) : ℚ :=
  max 0 (1 - pyOr elevation 1000 / 2000 + pyOr weather 5 / 20)

/-- `hail_score` in `calculate_risk`:
`min(1, ((elevation or 1000)/2000) * 0.7 + 0.2)`. -/
def hail_score (elevation : ℚ) : ℚ :=
  min 1 (pyOr elevation 1000 / 2000 * 0.7 + 0.2)

/-- `frost_score` in `calculate_risk`:
`min(1, ((elevation or 1000)/2000) * 0.5 + (1 - (ndvi or 0.5)) * 0.5)`. -/
def frost_score (elevation ndvi : ℚ) : ℚ :=
  min 1 (pyOr elevation 1000 / 2000 * 0.5 + (1 - pyOr ndvi 0.5) * 0.5)

/-- `pestilence_score` in `calculate_risk`: `min(1, (ndvi or 0.5) * 0.8)`. -/
def pestilence_score (ndvi : ℚ) : ℚ :=
  min 1 (pyOr ndvi 0.5 * 0.8)

/-- The `perils` dict of `calculate_risk`: each raw score rounded to 3
decimal places. -/
def perils (ndvi elevation weather : ℚ) : Peril → ℚ
  | .drought => round3 (drought_score ndvi weather)
  | .flood => round3 (flood_score elevation weather)
  | .hail => round3 (hail_score elevation)
  | .frost => round3 (frost_score elevation ndvi)
  | .pestilence => round3 (pestilence_score ndvi)

/-- `base_rate = 100` ($/hectare) in `calculate_risk`. -/
def base_rate : ℚ := 100

/-- The `peril_weights` dict of `calculate_risk`. -/
def peril_weights : Peril → ℚ
  | .drought => 0.3
  | .flood => 0.25
  | .hail => 0.15
  | .frost => 0.15
  | .pestilence => 0.15

/-- The `peril_premiums` dict of `calculate_risk`:
`round(base_rate * v * area_ha * coverage * peril_weights[k], 2)` for each
peril `k` with score `v`. -/
def peril_premiums (p : Peril → ℚ) (area_ha coverage : ℚ) : Peril → ℚ :=
  fun k => round2 (base_rate * p k * area_ha * coverage * peril_weights k)

/-- The `premium` total of `calculate_risk`:
`round(sum(peril_premiums.values()), 2)`. -/
def premium (p : Peril → ℚ) (area_ha coverage : ℚ) : ℚ :=
  round2 (peril_premiums p area_ha coverage .drought +
    peril_premiums p area_ha coverage .flood +
    peril_premiums p area_ha coverage .hail +
    peril_premiums p area_ha coverage .frost +
    peril_premiums p area_ha coverage .pestilence)

/-- The fields of the `/risk` response that the claims are about. -/
structure RiskResult where
  risk_score : ℚ
  premium : ℚ
  perils : Peril → ℚ
  peril_premiums : Peril → ℚ
  coverage : ℚ

/-- The scoring / premium pipeline of `calculate_risk` in
`backend/app/main.py`.  The three dataset aggregates and the projected area
`area_ha` (computed by `polygon_area_ha`, excluded glue per the spec) are
inputs; `coverage?` is the request's `Optional[float] coverage` field. -/
def calculate_risk (ndvi elevation weather area_ha : ℚ)
    (coverage? : Option ℚ) : RiskResult :=
  let p := perils ndvi elevation weather
  let risk_score :=
    (p .drought + p .flood + p .hail + p .frost + p .pestilence) / 5
  let risk_score := min (max risk_score 0) 1
  let coverage := pyOrOpt coverage? 1
  { risk_score := round3 risk_score
    premium := premium p area_ha coverage
    perils := p
    peril_premiums := peril_premiums p area_ha coverage
    coverage := coverage }

/-! ### Rounding lemmas -/

/-- Rounding an integer is the identity. -/
lemma roundHalfEven_intCast (n : ℤ) : roundHalfEven (n : ℚ) = n := by
  norm_num [roundHalfEven]

/-- `round2` is the identity on exact multiples of `1/100`. -/
lemma round2_int_div100 (n : ℤ) : round2 ((n : ℚ) / 100) = (n : ℚ) / 100 := by
  unfold round2
  rw [div_mul_cancel₀ ((n : ℚ)) (by norm_num : (100 : ℚ) ≠ 0), roundHalfEven_intCast]

/-- Every `round2` result is an exact multiple of `1/100`. -/
lemma round2_exists_int (q : ℚ) : ∃ n : ℤ, round2 q = (n : ℚ) / 100 :=
  ⟨roundHalfEven (q * 100), rfl⟩

/-! ### The running-minimum fold

`idxminBy` is a `foldl` of `step`.  The decomposition lemma below is the key
fact: the fold result splits its input list into a strictly-greater front
part and a greater-or-equal back part, which is exactly "first occurrence of
the minimum". -/

/-- Splitting lemma for the running-minimum fold: the input `s :: l` splits
as `l₁ ++ r :: l₂` around the fold result `r`, with every element before
`r` strictly larger (so `r` is the FIRST minimum) and every element after
`r` at least as large. -/
lemma foldl_step_decomp (f : Sample → ℚ) :
    ∀ (l : List Sample) (s : Sample), ∃ l₁ l₂,
      s :: l = l₁ ++ l.foldl (step f) s :: l₂ ∧
      (∀ t ∈ l₁, f (l.foldl (step f) s) < f t) ∧
      (∀ t ∈ l₂, f (l.foldl (step f) s) ≤ f t)
  | [], s => ⟨[], [], rfl, by simp, by simp⟩
  | x :: l, s => by
    obtain ⟨l₁, l₂, heq, h₁, h₂⟩ := foldl_step_decomp f l (step f s x)
    simp only [List.foldl_cons]
    set r := l.foldl (step f) (step f s x) with hr
    by_cases hx : f x < f s
    · have hs : step f s x = x := if_pos hx
      rw [hs] at heq
      have hrx : f r ≤ f x := by
        rcases l₁ with _ | ⟨a, l₁'⟩
        · simp only [List.nil_append, List.cons.injEq] at heq
          rw [← heq.1]
        · simp only [List.cons_append, List.cons.injEq] at heq
          rw [heq.1]
          exact le_of_lt (h₁ a (by simp))
      refine ⟨s :: l₁, l₂, ?_, ?_, h₂⟩
      · rw [List.cons_append, ← heq]
      · intro t ht
        rcases List.mem_cons.mp ht with rfl | ht'
        · exact lt_of_le_of_lt hrx hx
        · exact h₁ t ht'
    · have hs : step f s x = s := if_neg hx
      rw [hs] at heq
      rcases l₁ with _ | ⟨a, l₁'⟩
      · simp only [List.nil_append, List.cons.injEq] at heq
        obtain ⟨hsr, hl⟩ := heq
        refine ⟨[], x :: l₂, ?_, by simp, ?_⟩
        · simp only [List.nil_append]
          rw [hsr, hl]
        · intro t ht
          rcases List.mem_cons.mp ht with rfl | ht'
          · rw [← hsr]
            exact not_lt.mp hx
          · exact h₂ t ht'
      · simp only [List.cons_append, List.cons.injEq] at heq
        obtain ⟨hsa, hl⟩ := heq
        have hrs : f r < f s := by
          rw [hsa]
          exact h₁ a (by simp)
        refine ⟨s :: x :: l₁', l₂, ?_, ?_, h₂⟩
        · simp only [List.cons_append]
          rw [← hl]
        · intro t ht
          rcases List.mem_cons.mp ht with rfl | ht'
          · exact hrs
          · rcases List.mem_cons.mp ht' with rfl | ht''
            · exact lt_of_lt_of_le hrs (not_lt.mp hx)
            · exact h₁ t (List.mem_cons_of_mem a ht'')

/-- The running-minimum fold returns an element of the input list. -/
lemma foldl_step_mem (f : Sample → ℚ) (l : List Sample) (s : Sample) :
    l.foldl (step f) s ∈ s :: l := by
  obtain ⟨l₁, l₂, heq, -, -⟩ := foldl_step_decomp f l s
  rw [heq]
  exact List.mem_append_right _ (List.mem_cons_self _ _)

/-- The running-minimum fold returns a minimiser of `f` over the list. -/
lemma foldl_step_le (f : Sample → ℚ) (l : List Sample) (s : Sample) :
    ∀ t ∈ s :: l, f (l.foldl (step f) s) ≤ f t := by
  obtain ⟨l₁, l₂, heq, h₁, h₂⟩ := foldl_step_decomp f l s
  intro t ht
  rw [heq] at ht
  rcases List.mem_append.mp ht with h | h
  · exact le_of_lt (h₁ t h)
  · rcases List.mem_cons.mp h with rfl | h'
    · exact le_refl _
    · exact h₂ t h'

/-- `round2` maps `0` to `0`. -/
lemma round2_zero : round2 0 = 0 := by
  norm_num [round2, roundHalfEven]

/-- When some sample is contained, `get_ndvi_stats` returns the mean of the
contained samples' values. -/
lemma get_ndvi_stats_mean (poly : List (ℚ × ℚ)) (df : List Sample)
    (hne : df.filter (fun r => contains poly (r.lon, r.lat)) ≠ []) :
    get_ndvi_stats poly df = some
      (((df.filter (fun r => contains poly (r.lon, r.lat))).map Sample.value).sum /
        (df.filter (fun r => contains poly (r.lon, r.lat))).length) := by
  rcases hf : df.filter (fun r => contains poly (r.lon, r.lat)) with _ | ⟨a, as⟩
  · exact absurd hf hne
  · simp [get_ndvi_stats, hf]

/-- When no sample is contained, `get_ndvi_stats` returns the value of the
running-minimum fold over the (non-empty) table. -/
lemma get_ndvi_stats_fallback (poly : List (ℚ × ℚ)) (d : Sample) (ds : List Sample)
    (hfb : (d :: ds).filter (fun r => contains poly (r.lon, r.lat)) = []) :
    get_ndvi_stats poly (d :: ds) =
      some ((ds.foldl (step (fun r => dist2 (centroid poly) (r.lon, r.lat))) d).value) := by
  simp [get_ndvi_stats, hfb, idxminBy]

/-- The unit square, counter-clockwise, used as a concrete polygon in
witnesses and counterexamples. -/
def unitSquare : List (ℚ × ℚ) := [(0, 0), (1, 0), (1, 1), (0, 1)]

/-- C1: for every polygon and non-empty sample table, each of the three
spatial aggregation functions returns the arithmetic mean of the values of
the contained samples when at least one sample is contained, and otherwise
the value of a sample at minimal squared (hence minimal Euclidean) distance
from the polygon's area-weighted centroid. -/
theorem c1_aggregate_mean_or_nearest (poly : List (ℚ × ℚ)) (df : List Sample)
    (h : df ≠ []) :
    get_elevation_stats poly df = get_ndvi_stats poly df ∧
    get_weather_stats poly df = get_ndvi_stats poly df ∧
    (df.filter (fun r => contains poly (r.lon, r.lat)) ≠ [] →
      get_ndvi_stats poly df = some
        (((df.filter (fun r => contains poly (r.lon, r.lat))).map Sample.value).sum /
          (df.filter (fun r => contains poly (r.lon, r.lat))).length)) ∧
    (df.filter (fun r => contains poly (r.lon, r.lat)) = [] →
      ∃ s ∈ df, get_ndvi_stats poly df = some s.value ∧
        ∀ t ∈ df, dist2 (centroid poly) (s.lon, s.lat) ≤
          dist2 (centroid poly) (t.lon, t.lat)) := by
  refine ⟨rfl, rfl, fun hne => get_ndvi_stats_mean poly df hne, fun hfb => ?_⟩
  obtain ⟨d, ds, rfl⟩ := List.exists_cons_of_ne_nil h
  exact ⟨ds.foldl (step (fun r => dist2 (centroid poly) (r.lon, r.lat))) d,
    foldl_step_mem _ ds d,
    get_ndvi_stats_fallback poly d ds hfb,
    foldl_step_le _ ds d⟩

/-- C1 witness: the unit square together with a one-sample table containing
the sample `(1/2, 1/2, 4)`. -/
theorem c1_witness :
    ([⟨1/2, 1/2, 4⟩] : List Sample) ≠ [] ∧
    (get_elevation_stats unitSquare [⟨1/2, 1/2, 4⟩] =
        get_ndvi_stats unitSquare [⟨1/2, 1/2, 4⟩] ∧
      get_weather_stats unitSquare [⟨1/2, 1/2, 4⟩] =
        get_ndvi_stats unitSquare [⟨1/2, 1/2, 4⟩] ∧
      (([⟨1/2, 1/2, 4⟩] : List Sample).filter
          (fun r => contains unitSquare (r.lon, r.lat)) ≠ [] →
        get_ndvi_stats unitSquare [⟨1/2, 1/2, 4⟩] = some
          (((([⟨1/2, 1/2, 4⟩] : List Sample).filter
              (fun r => contains unitSquare (r.lon, r.lat))).map Sample.value).sum /
            (([⟨1/2, 1/2, 4⟩] : List Sample).filter
              (fun r => contains unitSquare (r.lon, r.lat))).length)) ∧
      (([⟨1/2, 1/2, 4⟩] : List Sample).filter
          (fun r => contains unitSquare (r.lon, r.lat)) = [] →
        ∃ s ∈ ([⟨1/2, 1/2, 4⟩] : List Sample),
          get_ndvi_stats unitSquare [⟨1/2, 1/2, 4⟩] = some s.value ∧
          ∀ t ∈ ([⟨1/2, 1/2, 4⟩] : List Sample),
            dist2 (centroid unitSquare) (s.lon, s.lat) ≤
              dist2 (centroid unitSquare) (t.lon, t.lat))) :=
  ⟨by simp, c1_aggregate_mean_or_nearest unitSquare [⟨1/2, 1/2, 4⟩] (by simp)⟩

/-- C5 counterexample: the sample `(1/2, 0)` lies on the bottom edge of the
unit square (its cross product with that edge is zero and it is between the
edge's endpoints), yet the containment test rejects it, and the aggregate
over a table holding that boundary sample (value 100) plus one interior
sample (value 0) is `0`, not the two-sample mean `50` the claim requires. -/
theorem c5_boundary_counterexample :
    ((( (0 : ℚ), (0 : ℚ)), ((1 : ℚ), (0 : ℚ))) ∈ edges unitSquare) ∧
    cross (0, 0) (1, 0) (1/2, 0) = 0 ∧
    contains unitSquare (1/2, 0) = false ∧
    get_ndvi_stats unitSquare [⟨1/2, 0, 100⟩, ⟨1/2, 1/2, 0⟩] = some 0 ∧
    get_ndvi_stats unitSquare [⟨1/2, 0, 100⟩, ⟨1/2, 1/2, 0⟩] ≠
      some ((100 + 0) / 2) := by
  refine ⟨?_, by norm_num [cross], ?_, ?_, ?_⟩
  · norm_num [edges, unitSquare, List.rotate]
  · norm_num [contains, edges, cross, unitSquare, List.rotate]
  · norm_num [get_ndvi_stats, contains, edges, cross, unitSquare, List.rotate,
      centroid, dist2, idxminBy, step, List.filter]
  · norm_num [get_ndvi_stats, contains, edges, cross, unitSquare, List.rotate,
      centroid, dist2, idxminBy, step, List.filter]

/-- C5 amended: a point whose cross product with some edge of the polygon
vanishes (in particular any point on the polygon's boundary) is NOT treated
as contained — shapely's `contains` is interior-only — so boundary samples
are excluded from the mean. -/
theorem c5_boundary_not_contained (poly : List (ℚ × ℚ)) (p : ℚ × ℚ)
    (e : (ℚ × ℚ) × (ℚ × ℚ)) (he : e ∈ edges poly) (hc : cross e.1 e.2 p = 0) :
    contains poly p = false := by
  have hB : (edges poly).all (fun e => decide (0 < cross e.1 e.2 p)) = false := by
    rw [Bool.eq_false_iff]
    intro hall
    rw [List.all_eq_true] at hall
    have h0 : (0 : ℚ) < cross e.1 e.2 p := of_decide_eq_true (hall e he)
    rw [hc] at h0
    exact lt_irrefl 0 h0
  unfold contains
  rw [hB, Bool.and_false]

/-- C5 amended witness: the bottom edge of the unit square and the boundary
point `(1/2, 0)`. -/
theorem c5_boundary_witness :
    ((( (0 : ℚ), (0 : ℚ)), ((1 : ℚ), (0 : ℚ))) ∈ edges unitSquare) ∧
    cross (0, 0) (1, 0) (1/2, 0) = 0 ∧
    contains unitSquare ((1 : ℚ)/2, (0 : ℚ)) = false :=
  ⟨by norm_num [edges, unitSquare, List.rotate], by norm_num [cross],
    c5_boundary_not_contained unitSquare (1/2, 0) ((0, 0), (1, 0))
      (by norm_num [edges, unitSquare, List.rotate]) (by norm_num [cross])⟩

/-- C6: in the fallback path (no contained sample, non-empty table), the
aggregator returns the value of the first sample of minimal (squared)
distance from the centroid: the table splits around the returned sample so
that every earlier sample is strictly farther and every later sample is at
least as far. -/
theorem c6_tie_first_occurrence (poly : List (ℚ × ℚ)) (df : List Sample)
    (h : df ≠ [])
    (hfb : df.filter (fun r => contains poly (r.lon, r.lat)) = []) :
    ∃ l₁ s l₂, df = l₁ ++ s :: l₂ ∧
      get_ndvi_stats poly df = some s.value ∧
      (∀ t ∈ l₁, dist2 (centroid poly) (s.lon, s.lat) <
        dist2 (centroid poly) (t.lon, t.lat)) ∧
      (∀ t ∈ l₂, dist2 (centroid poly) (s.lon, s.lat) ≤
        dist2 (centroid poly) (t.lon, t.lat)) := by
  obtain ⟨d, ds, rfl⟩ := List.exists_cons_of_ne_nil h
  obtain ⟨l₁, l₂, heq, h₁, h₂⟩ :=
    foldl_step_decomp (fun r => dist2 (centroid poly) (r.lon, r.lat)) ds d
  exact ⟨l₁, _, l₂, heq, get_ndvi_stats_fallback poly d ds hfb, h₁, h₂⟩

/-- C6 witness: two samples at `(5, 1/2)` and `(-4, 1/2)`, both at squared
distance `81/4` from the unit square's centroid `(1/2, 1/2)` and neither
contained; the aggregate is the FIRST tied sample's value, `7`. -/
theorem c6_witness :
    dist2 (centroid unitSquare) (5, 1/2) = dist2 (centroid unitSquare) (-4, 1/2) ∧
    get_ndvi_stats unitSquare [⟨5, 1/2, 7⟩, ⟨-4, 1/2, 9⟩] = some 7 ∧
    (∃ l₁ s l₂, ([⟨5, 1/2, 7⟩, ⟨-4, 1/2, 9⟩] : List Sample) = l₁ ++ s :: l₂ ∧
      get_ndvi_stats unitSquare [⟨5, 1/2, 7⟩, ⟨-4, 1/2, 9⟩] = some s.value ∧
      (∀ t ∈ l₁, dist2 (centroid unitSquare) (s.lon, s.lat) <
        dist2 (centroid unitSquare) (t.lon, t.lat)) ∧
      (∀ t ∈ l₂, dist2 (centroid unitSquare) (s.lon, s.lat) ≤
        dist2 (centroid unitSquare) (t.lon, t.lat))) :=
  ⟨by norm_num [dist2, centroid, edges, unitSquare, List.rotate],
    by norm_num [get_ndvi_stats, contains, edges, cross, unitSquare, List.rotate,
      centroid, dist2, idxminBy, step, List.filter],
    c6_tie_first_occurrence unitSquare [⟨5, 1/2, 7⟩, ⟨-4, 1/2, 9⟩] (by simp)
      (by norm_num [contains, edges, cross, unitSquare, List.rotate, List.filter])⟩

/-- C2 (code bug): at the claim's own extreme input
`(ndvi, elevation, weather) = (-1, 100000, 1000)` the pestilence score is
`min(1, -1 * 0.8) = -0.8`, which lies outside `[0, 1]`: the implementation
clamps each score on one side only.  (The reported, 3-decimal-rounded score
is also `-0.8`.) -/
theorem c2_peril_score_clamp_violation :
    pestilence_score (-1) = -(4/5) ∧
    perils (-1) 100000 1000 .pestilence = -(4/5) ∧
    perils (-1) 100000 1000 .pestilence < 0 := by
  refine ⟨by norm_num [pestilence_score, pyOr], ?_, ?_⟩ <;>
    norm_num [perils, pestilence_score, pyOr, round3, roundHalfEven]

/-- The drought formula exactly as the spec's table states it
(`max(0, 1 - (ndvi + weather/20))`, applied to the aggregates themselves
with no default substitution); stated for comparison with the
implementation's `drought_score`. -/
def spec_drought_formula (ndvi weather : ℚ) : ℚ :=
  max 0 (1 - (ndvi + weather / 20))

/-- C3 (code bug): for the present numeric aggregate `ndvi = 0` (with
`weather = 3`), the implementation substitutes the default `0.5` via
Python's `or` and returns drought `0.35`, whereas the spec's formula applied
to the given aggregates yields `0.85`. -/
theorem c3_zero_input_substitution :
    drought_score 0 3 = 0.35 ∧
    spec_drought_formula 0 3 = 0.85 ∧
    drought_score 0 3 ≠ spec_drought_formula 0 3 := by
  refine ⟨?_, ?_, ?_⟩ <;> norm_num [drought_score, spec_drought_formula, pyOr]

/-- C4: every per-peril premium is
`round2 (base_rate * score * area_ha * coverage * weight)` with the static
weights, rounded independently, and the reported total equals the plain sum
of the five already-rounded line items (the outer `round` in the source is
the identity on that sum, since each line item is an exact multiple of a
cent). -/
theorem c4_premium_rounding_order (p : Peril → ℚ) (area_ha coverage : ℚ) :
    peril_weights .drought = 0.3 ∧ peril_weights .flood = 0.25 ∧
    peril_weights .hail = 0.15 ∧ peril_weights .frost = 0.15 ∧
    peril_weights .pestilence = 0.15 ∧
    (∀ k, peril_premiums p area_ha coverage k =
      round2 (base_rate * p k * area_ha * coverage * peril_weights k)) ∧
    premium p area_ha coverage =
      peril_premiums p area_ha coverage .drought +
      peril_premiums p area_ha coverage .flood +
      peril_premiums p area_ha coverage .hail +
      peril_premiums p area_ha coverage .frost +
      peril_premiums p area_ha coverage .pestilence := by
  have key : ∀ q1 q2 q3 q4 q5 : ℚ,
      round2 (round2 q1 + round2 q2 + round2 q3 + round2 q4 + round2 q5) =
        round2 q1 + round2 q2 + round2 q3 + round2 q4 + round2 q5 := by
    intro q1 q2 q3 q4 q5
    obtain ⟨n1, h1⟩ := round2_exists_int q1
    obtain ⟨n2, h2⟩ := round2_exists_int q2
    obtain ⟨n3, h3⟩ := round2_exists_int q3
    obtain ⟨n4, h4⟩ := round2_exists_int q4
    obtain ⟨n5, h5⟩ := round2_exists_int q5
    rw [h1, h2, h3, h4, h5,
      show (n1 : ℚ) / 100 + n2 / 100 + n3 / 100 + n4 / 100 + n5 / 100 =
        ((n1 + n2 + n3 + n4 + n5 : ℤ) : ℚ) / 100 by push_cast; ring,
      round2_int_div100]
  exact ⟨rfl, rfl, rfl, rfl, rfl, fun k => rfl, key _ _ _ _ _⟩

/-- C7 counterexample: at the end-to-end example input the mean of the five
peril scores is `(0.45 + 0.9 + 0.375 + 0.425 + 0.32)/5 = 0.494`, not
approximately `0.498` (it does not even round to `0.498` at the three
reported decimal places). -/
theorem c7_example_risk_counterexample :
    (calculate_risk 0.4 500 3 10 (some 1)).risk_score = 247/500 ∧
    ¬ |(247/500 : ℚ) - 0.498| ≤ 1/2000 := by
  constructor
  · norm_num [calculate_risk, perils, drought_score, flood_score, hail_score,
      frost_score, pestilence_score, pyOr, pyOrOpt, round3, roundHalfEven]
  · rw [show |(247/500 : ℚ) - 0.498| = 1/250 by
      rw [abs_of_neg (by norm_num)]; norm_num]
    norm_num

/-- C7 amended: the end-to-end example with the risk score corrected to
`0.494`: ndvi `0.4`, elevation `500`, weather `3`, area `10` ha, coverage
`1`, base rate `100` yield drought `0.45`, flood `0.9`, hail `0.375`, frost
`0.425`, pestilence `0.32`, risk score `0.494` (the mean of the five
scores), a drought premium of `135.00`, and a total premium equal to the
sum of the five rounded line items. -/
theorem c7_example_amended :
    (calculate_risk 0.4 500 3 10 (some 1)).perils .drought = 0.45 ∧
    (calculate_risk 0.4 500 3 10 (some 1)).perils .flood = 0.9 ∧
    (calculate_risk 0.4 500 3 10 (some 1)).perils .hail = 0.375 ∧
    (calculate_risk 0.4 500 3 10 (some 1)).perils .frost = 0.425 ∧
    (calculate_risk 0.4 500 3 10 (some 1)).perils .pestilence = 0.32 ∧
    (calculate_risk 0.4 500 3 10 (some 1)).risk_score = 0.494 ∧
    (calculate_risk 0.4 500 3 10 (some 1)).risk_score =
      round3 (min (max ((0.45 + 0.9 + 0.375 + 0.425 + 0.32) / 5) 0) 1) ∧
    (calculate_risk 0.4 500 3 10 (some 1)).peril_premiums .drought = 135 ∧
    (calculate_risk 0.4 500 3 10 (some 1)).premium =
      (calculate_risk 0.4 500 3 10 (some 1)).peril_premiums .drought +
      (calculate_risk 0.4 500 3 10 (some 1)).peril_premiums .flood +
      (calculate_risk 0.4 500 3 10 (some 1)).peril_premiums .hail +
      (calculate_risk 0.4 500 3 10 (some 1)).peril_premiums .frost +
      (calculate_risk 0.4 500 3 10 (some 1)).peril_premiums .pestilence := by
  refine ⟨?_, ?_, ?_, ?_, ?_, ?_, ?_, ?_, ?_⟩ <;>
    norm_num [calculate_risk, perils, drought_score, flood_score, hail_score,
      frost_score, pestilence_score, pyOr, pyOrOpt, round3, round2,
      roundHalfEven, base_rate, peril_weights, peril_premiums, premium]

/-- C8 (code bug): with the nonnegative inputs `area_ha = 10` and
`coverage = 1` but aggregate `ndvi = -1`, the pestilence line item is
`round2 (100 * (-0.8) * 10 * 1 * 0.15) = -120.00`, a negative monetary
amount. -/
theorem c8_negative_line_item :
    (0 : ℚ) ≤ 10 ∧ (0 : ℚ) ≤ 1 ∧
    (calculate_risk (-1) 500 3 10 (some 1)).peril_premiums .pestilence = -120 ∧
    (calculate_risk (-1) 500 3 10 (some 1)).peril_premiums .pestilence < 0 := by
  refine ⟨by norm_num, by norm_num, ?_, ?_⟩ <;>
    norm_num [calculate_risk, perils, pestilence_score, pyOr, pyOrOpt, round3,
      round2, roundHalfEven, base_rate, peril_weights, peril_premiums]

/-- C9: with `area_ha = 0` the premium computation is total (no error) and
every per-peril premium and the total premium are exactly `0`, both for an
arbitrary peril-score map fed to the premium calculator and for the full
pipeline on arbitrary aggregates. -/
theorem c9_zero_area_zero_premium (p : Peril → ℚ) (coverage : ℚ)
    (ndvi elevation weather : ℚ) (coverage? : Option ℚ) :
    (∀ k, peril_premiums p 0 coverage k = 0) ∧
    premium p 0 coverage = 0 ∧
    (∀ k, (calculate_risk ndvi elevation weather 0 coverage?).peril_premiums k = 0) ∧
    (calculate_risk ndvi elevation weather 0 coverage?).premium = 0 := by
  have hpp : ∀ (q : Peril → ℚ) (c : ℚ) (k : Peril), peril_premiums q 0 c k = 0 := by
    intro q c k
    unfold peril_premiums
    rw [show base_rate * q k * 0 * c * peril_weights k = 0 by ring, round2_zero]
  have hprem : ∀ (q : Peril → ℚ) (c : ℚ), premium q 0 c = 0 := by
    intro q c
    unfold premium
    simp only [hpp]
    rw [show (0 : ℚ) + 0 + 0 + 0 + 0 = 0 by ring, round2_zero]
  exact ⟨hpp p coverage, hprem p coverage, fun k => hpp _ _ k, hprem _ _⟩

/-- C10: an explicitly supplied `coverage = 0.0` is coerced to the default
`1.0` by Python's `or`, so the per-peril premiums and the total premium are
identical to those computed with `coverage = 1.0`. -/
theorem c10_zero_coverage_default (ndvi elevation weather area_ha : ℚ) :
    (∀ k, (calculate_risk ndvi elevation weather area_ha (some 0)).peril_premiums k =
      (calculate_risk ndvi elevation weather area_ha (some 1)).peril_premiums k) ∧
    (calculate_risk ndvi elevation weather area_ha (some 0)).premium =
      (calculate_risk ndvi elevation weather area_ha (some 1)).premium ∧
    (calculate_risk ndvi elevation weather area_ha (some 0)).coverage = 1 := by
  have h : pyOrOpt (some (0 : ℚ)) 1 = pyOrOpt (some 1) 1 := by
    norm_num [pyOrOpt]
  refine ⟨fun k => ?_, ?_, ?_⟩
  · show peril_premiums (perils ndvi elevation weather) area_ha (pyOrOpt (some 0) 1) k =
      peril_premiums (perils ndvi elevation weather) area_ha (pyOrOpt (some 1) 1) k
    rw [h]
  · show premium (perils ndvi elevation weather) area_ha (pyOrOpt (some 0) 1) =
      premium (perils ndvi elevation weather) area_ha (pyOrOpt (some 1) 1)
    rw [h]
  · show pyOrOpt (some 0) 1 = 1
    norm_num [pyOrOpt]

end AgriRisk
